import Mathlib

/-!
Verification of the UPS governance demo scripts.

The development shallowly embeds the violation parser, scorer, report
aggregators, dashboard statistics, retry wrapper and task-polling loop of the
repository.  External effects (subprocess invocation, HTTP, filesystem) are
modelled as explicit inputs: a linter invocation is represented by its captured
text output or thrown exception, a network operation by the sequence of
outcomes of its successive invocations.

JavaScript values are modelled as follows: strings are Lean `String`s, machine
numbers that stay integral are `Int`/`Nat`, the floating division used by the
dashboard average is a `JSNum` carrying `NaN`/infinity explicitly, `undefined`
or absent fields are `Option`, and a thrown exception is the `Except.error`
branch of an explicit result.
-/

namespace UpsGovernance

/-! ## String primitives used by the scripts -/

/-- List-level prefix test, modelling the inner loop of JavaScript
`String.prototype.includes`. -/
def isPrefixList : List Char → List Char → Bool
  | [], _ => true
  | _ :: _, [] => false
  | a :: as, b :: bs => a = b && isPrefixList as bs

/-- Substring occurrence test on character lists. -/
def containsList (sub : List Char) : List Char → Bool
  | [] => isPrefixList sub []
  | c :: rest => isPrefixList sub (c :: rest) || containsList sub rest

/-- JavaScript `s.includes(sub)`. -/
def containsStr (s sub : String) : Bool :=
  containsList sub.data s.data

/-- Consume the `[0-9;]*m` body of an ANSI escape, returning the tail after the
terminating `m`, or `none` when the escape is not well formed.  This is the
deterministic reading of the regex `\x1b\[[0-9;]*m` used at part_001 line 49:
the greedy class run can only stop at a character outside `[0-9;]`, and the
match succeeds exactly when that character is `m`. -/
def dropAnsiBody : List Char → Option (List Char)
  | [] => none
  | c :: rest =>
    if c = 'm' then some rest
    else if c.isDigit || c = ';' then dropAnsiBody rest
    else none

/-- Fuel-driven worker for `stripAnsi`; the fuel is the length of the input, a
strict upper bound on the number of recursive steps. -/
def stripAnsiAux : Nat → List Char → List Char
  | 0, l => l
  | _ + 1, [] => []
  | fuel + 1, c :: rest =>
    if c = '\x1b' then
      match rest with
      | '[' :: rest2 =>
        match dropAnsiBody rest2 with
        | some rest3 => stripAnsiAux fuel rest3
        | none => c :: stripAnsiAux fuel rest
      | _ => c :: stripAnsiAux fuel rest
    else c :: stripAnsiAux fuel rest

/-- JavaScript `s.replace(/\x1b\[[0-9;]*m/g, '')` (part_001 lines 49 and 76,
ups_postman_governance.js line 40). -/
def stripAnsi (s : String) : String :=
  ⟨stripAnsiAux s.data.length s.data⟩

/-- Worker for `splitNl`: split a character list at every newline, keeping
empty pieces, as JavaScript `split` does. -/
def splitCharsNl : List Char → List (List Char)
  | [] => [[]]
  | c :: rest =>
    match splitCharsNl rest with
    | [] => [[c]]
    | piece :: pieces =>
      if c = '\n' then [] :: piece :: pieces else (c :: piece) :: pieces

/-- JavaScript `s.split('\n')`. -/
def splitNl (s : String) : List String :=
  (splitCharsNl s.data).map fun piece => ⟨piece⟩

/-- Decimal digit character. -/
def digitChar10 (n : Nat) : Char :=
  if n = 0 then '0' else if n = 1 then '1' else if n = 2 then '2'
  else if n = 3 then '3' else if n = 4 then '4' else if n = 5 then '5'
  else if n = 6 then '6' else if n = 7 then '7' else if n = 8 then '8' else '9'

/-- Worker for `natToStr`; the fuel bounds the number of digits. -/
def natToCharsAux : Nat → Nat → List Char
  | 0, _ => []
  | fuel + 1, n =>
    if n < 10 then [digitChar10 n]
    else natToCharsAux fuel (n / 10) ++ [digitChar10 (n % 10)]

/-- Decimal rendering of a natural number, as JavaScript renders an integral
number into a template string. -/
def natToStr (n : Nat) : String :=
  ⟨natToCharsAux (n + 1) n⟩

/-- Decimal rendering of an integer. -/
def intToStr : Int → String
  | Int.ofNat n => natToStr n
  | Int.negSucc n => "-" ++ natToStr (n + 1)

/-- JavaScript `o || d` for an optional string: `undefined` and the empty
string are falsy. -/
def jsOrElse (o : Option String) (d : String) : String :=
  match o with
  | some s => if s = "" then d else s
  | none => d

/-! ## Violations and the scorer -/

/-- One linter violation; the scripts only ever inspect its severity field
(`{ severity: ... }`).  The field is optional because the JavaScript scorer
defensively defaults an absent severity to `hint`. -/
structure Violation where
  severity : Option String
deriving DecidableEq, Repr

/-- Per-violation penalty, from the identical `switch` statements at part_001
lines 100-116 and ups_postman_governance.js lines 57-73: `error` costs 10,
`warning`/`warn` cost 5, `info` costs 2 and everything else (including `hint`)
costs 1. -/
def severityPenalty (v : Violation) : Int :=
  let s := jsOrElse v.severity "hint"
  if s = "error" then 10
  else if s = "warning" then 5
  else if s = "warn" then 5
  else if s = "info" then 2
  else 1

/-- The scorer fold: start at 100, subtract the penalty of each violation, then
clamp at 0 with `Math.max` (part_001 lines 98-119). -/
def scoreViolations (violations : List Violation) : Int :=
  max 0 (violations.foldl (fun score v => score - severityPenalty v) 100)

/-- Modelled from the spec: the per-severity penalty table stated in the spec
(`error=10, warning=5, info=2, hint/default=1`), used only to compare the
implemented scorer against the specified formula. -/
def specPenalty (v : Violation) : Int :=
  match v.severity with
  | some "error" => 10
  | some "warning" => 5
  | some "info" => 2
  | _ => 1

/-! ## Scorer lemmas -/

/-- The scorer fold subtracts exactly the sum of the penalties. -/
theorem foldl_sub_penalty (violations : List Violation) :
    ∀ a : Int,
      violations.foldl (fun score v => score - severityPenalty v) a
        = a - (violations.map severityPenalty).sum := by
  induction violations with
  | nil => intro a; simp
  | cons v rest ih =>
    intro a
    simp only [List.foldl_cons, List.map_cons, List.sum_cons, ih]
    ring

/-- Every penalty is at least 1. -/
theorem one_le_severityPenalty (v : Violation) : 1 ≤ severityPenalty v := by
  unfold severityPenalty
  set s := jsOrElse v.severity "hint" with hs
  simp only
  split
  · omega
  · split
    · omega
    · split
      · omega
      · split <;> omega

/-- On the four data-model severities the implemented penalty agrees with the
penalty table of the spec. -/
theorem severityPenalty_eq_specPenalty (v : Violation)
    (h : v.severity = some "error" ∨ v.severity = some "warning" ∨
         v.severity = some "info" ∨ v.severity = some "hint") :
    severityPenalty v = specPenalty v := by
  obtain h | h | h | h := h <;> simp [severityPenalty, specPenalty, jsOrElse, h]

/-! ## The summary-line matcher

Part_001 lines 52-54 match the whole ANSI-stripped output against the regex

`.*?(\d+)\s+problems?\s*\((\d+)\s+errors?,\s*(\d+)\s+warnings?,\s*(\d+)\s+infos?,\s*(\d+)\s+hints?\)`

and use the five numeric captures.  The functions below implement the regex
deterministically.  The leading lazy `.*?` never changes the captures: the
scanner below tries every start position left to right, which yields the same
leftmost tail match, and the greedy `\d+`/`s?` pieces cannot backtrack
successfully because the character class of each piece is disjoint from the
literal that follows it. -/

/-- Character class of JavaScript `\s` (the whitespace code points the regex
engine accepts). -/
def isJsWs (c : Char) : Bool :=
  c = ' ' || c = '\t' || c = '\n' || c = '\r' || c = '\x0b' || c = '\x0c' ||
  c.val = 0xa0 || c.val = 0x1680 || (0x2000 ≤ c.val && c.val ≤ 0x200a) ||
  c.val = 0x2028 || c.val = 0x2029 || c.val = 0x202f || c.val = 0x205f ||
  c.val = 0x3000 || c.val = 0xfeff

/-- Split a maximal leading digit run (`\d+`, greedy) off a character list. -/
def takeDigitRun : List Char → List Char × List Char
  | [] => ([], [])
  | c :: rest =>
    if c.isDigit then
      let (run, tail) := takeDigitRun rest
      (c :: run, tail)
    else ([], c :: rest)

/-- Numeric value of a digit run, as JavaScript `parseInt` computes it for a
string of decimal digits. -/
def digitsToNat (run : List Char) : Nat :=
  run.foldl (fun acc c => acc * 10 + (c.toNat - '0'.toNat)) 0

/-- Parse `\d+` and return its value; fails when no digit is present. -/
def parseNat (l : List Char) : Option (Nat × List Char) :=
  match takeDigitRun l with
  | ([], _) => none
  | (run, tail) => some (digitsToNat run, tail)

/-- Parse `\s+` (one or more whitespace characters, greedy). -/
def skipWs1 : List Char → Option (List Char)
  | [] => none
  | c :: rest => if isJsWs c then some (skipWs0 rest) else none
where
  /-- Parse `\s*` (zero or more whitespace characters, greedy). -/
  skipWs0 : List Char → List Char
  | [] => []
  | c :: rest => if isJsWs c then skipWs0 rest else c :: rest

/-- Parse a literal word. -/
def parseLit : List Char → List Char → Option (List Char)
  | [], l => some l
  | _ :: _, [] => none
  | w :: ws, c :: rest => if w = c then parseLit ws rest else none

/-- Parse an optional trailing `s` (`s?`, greedy). -/
def parseOptS : List Char → List Char
  | 's' :: rest => rest
  | l => l

/-- Parse `(\d+)\s+<word>s?` and return the numeric capture. -/
def parseCountWord (word : List Char) (l : List Char) : Option (Nat × List Char) := do
  let (n, l) ← parseNat l
  let l ← skipWs1 l
  let l ← parseLit word l
  some (n, parseOptS l)

/-- Attempt the whole summary pattern at the current position, returning the
five captures `(N, E, W, I, H)`. -/
def parseSummaryAt (l : List Char) : Option (Nat × Nat × Nat × Nat × Nat) := do
  let (n, l) ← parseCountWord "problem".data l
  let l := skipWs1.skipWs0 l
  let l ← parseLit "(".data l
  let (e, l) ← parseCountWord "error".data l
  let l ← parseLit ",".data l
  let l := skipWs1.skipWs0 l
  let (w, l) ← parseCountWord "warning".data l
  let l ← parseLit ",".data l
  let l := skipWs1.skipWs0 l
  let (i, l) ← parseCountWord "info".data l
  let l ← parseLit ",".data l
  let l := skipWs1.skipWs0 l
  let (h, l) ← parseCountWord "hint".data l
  let _ ← parseLit ")".data l
  some (n, e, w, i, h)

/-- Scan all start positions left to right for the first summary match,
mirroring the regex engine's leftmost-match search. -/
def scanSummary : List Char → Option (Nat × Nat × Nat × Nat × Nat)
  | [] => none
  | c :: rest =>
    match parseSummaryAt (c :: rest) with
    | some r => some r
    | none => scanSummary rest

/-- JavaScript `cleanOutput.match(summaryRegex)`, reduced to the five numeric
captures the script uses. -/
def matchSummary (s : String) : Option (Nat × Nat × Nat × Nat × Nat) :=
  scanSummary s.data

/-! ## The per-spec score result -/

/-- Result object of the scorer functions.  The success path fills
`violations`/`violationCount` and leaves `error` absent; the failure paths
return only `score` and `error` (part_001 lines 42, 118-122, 124). -/
structure ScoreResult where
  score : Int
  violations : Option (List Violation)
  violationCount : Option Nat
  error : Option String
deriving DecidableEq, Repr

/-! ## part_001: the file-based governance scorer -/

namespace Part001

/-- Table-row fallback of part_001 lines 73-94: keep lines containing the box
character, strip ANSI codes again, skip header and separator rows, then
classify each remaining row by the first severity keyword it contains. -/
def tableViolations (lines : List String) : List Violation :=
  lines.foldr
    (fun line acc =>
      if containsStr line "│" then
        let lineClean := stripAnsi line
        if containsStr lineClean "Range" || containsStr lineClean "Severity" ||
            containsStr lineClean "─" then
          acc
        else if containsStr lineClean "ERROR" then ⟨some "error"⟩ :: acc
        else if containsStr lineClean "WARN" then ⟨some "warning"⟩ :: acc
        else if containsStr lineClean "INFO" then ⟨some "info"⟩ :: acc
        else if containsStr lineClean "HINT" then ⟨some "hint"⟩ :: acc
        else acc
      else acc)
    []

/-- Violation extraction of part_001 lines 45-95: prefer the summary-line
counts (pushing that many violations of each severity, errors first), fall
back to scanning table rows. -/
def parseViolations (cleanOutput : String) : List Violation :=
  match matchSummary cleanOutput with
  | some (_, errors, warnings, infos, hints) =>
    List.replicate errors (⟨some "error"⟩ : Violation) ++
    List.replicate warnings (⟨some "warning"⟩ : Violation) ++
    List.replicate infos (⟨some "info"⟩ : Violation) ++
    List.replicate hints (⟨some "hint"⟩ : Violation)
  | none => tableViolations (splitNl cleanOutput)

/-- Lines 40-122 of part_001's `scoreSpecFile`: given the captured linter
output, short-circuit on the parse-failure marker, otherwise strip ANSI codes,
extract violations and fold them into a score. -/
def scoreSpecFileParse (stdout : String) : ScoreResult :=
  if containsStr stdout "Error:" && containsStr stdout "Couldn't parse" then
    { score := 0, violations := none, violationCount := none,
      error := some "Failed to parse API specification" }
  else
    let cleanOutput := stripAnsi stdout
    let violations := parseViolations cleanOutput
    { score := scoreViolations violations, violations := some violations,
      violationCount := some violations.length, error := none }

/-- Exception object thrown by `execPromise` (part_001 lines 34-38): the
script salvages `error.stdout || error.message || ''`.  An absent field is
modelled by the empty string, which is equally falsy in JavaScript. -/
structure ExecError where
  stdout : String
  message : String
deriving DecidableEq, Repr

/-- JavaScript `error.stdout || error.message || ''`. -/
def salvageOutput (e : ExecError) : String :=
  if e.stdout ≠ "" then e.stdout else if e.message ≠ "" then e.message else ""

/-- The text `scoreSpecFile` goes on to parse: the captured standard output on
success, the salvaged output of the exception on subprocess failure. -/
def execText (outcome : Except ExecError String) : String :=
  match outcome with
  | Except.ok out => out
  | Except.error e => salvageOutput e

/-- part_001 `scoreSpecFile`, lines 23-126, as a function of the subprocess
outcome (the subprocess itself is an external collaborator).  The inner
`try`/`catch` turns a thrown exec error into salvaged output; nothing after it
can throw, so the outer `catch` never fires and the function is total. -/
def scoreSpecFile (outcome : Except ExecError String) : ScoreResult :=
  scoreSpecFileParse (execText outcome)

/-- One spec enumerated by directory listing: display name (basename without
extension) and path, as computed at part_001 lines 154-155. -/
structure SpecFile where
  name : String
  path : String
deriving DecidableEq, Repr

/-- Report record assembled per spec (part_001 lines 159-176). -/
structure ReportEntry where
  name : String
  path : String
  score : Int
  violationsCount : Nat
  status : String
  error : Option String
deriving DecidableEq, Repr

/-- Loop body of `getDirectoryGovernanceReport` (part_001 lines 153-178): each
spec is scored inside its own `try`/`catch`, a throwing scorer is recorded as
a FAIL entry with score 0 instead of aborting the batch.  The directory
enumeration itself (readdir plus extension filter, lines 141-149) is the
filesystem boundary and enters as the already-enumerated `specFiles` list. -/
def getDirectoryGovernanceReport (specFiles : List SpecFile) (threshold : Int)
    (scoreFn : String → Except String ScoreResult) : List ReportEntry :=
  specFiles.map fun file =>
    match scoreFn file.path with
    | Except.ok result =>
      { name := file.name, path := file.path, score := result.score,
        violationsCount := result.violationCount.getD 0,
        status := if result.score ≥ threshold then "PASS" else "FAIL",
        error := result.error }
    | Except.error e =>
      { name := file.name, path := file.path, score := 0,
        violationsCount := 0, status := "FAIL",
        error := some ("Failed to score: " ++ e) }

/-- Single-spec report entry built by part_001's `main` (lines 483-491). -/
def singleSpecEntry (name path : String) (result : ScoreResult)
    (threshold : Int) : ReportEntry :=
  { name := name, path := path, score := result.score,
    violationsCount := result.violationCount.getD 0,
    status := if result.score ≥ threshold then "PASS" else "FAIL",
    error := none }

end Part001

/-! ## JavaScript numbers for the dashboard average -/

/-- JavaScript floating-point value as the dashboard uses it: a finite value
(exact rational, since the inputs are integers), `NaN`, or an infinity.
Division by zero does not throw in JavaScript; it produces `NaN` or an
infinity. -/
inductive JSNum where
  | num (q : ℚ)
  | nan
  | posInf
  | negInf
deriving DecidableEq, Repr

/-- JavaScript division. -/
def jsDiv (a b : ℚ) : JSNum :=
  if b = 0 then
    if a = 0 then JSNum.nan
    else if a > 0 then JSNum.posInf
    else JSNum.negInf
  else JSNum.num (a / b)

/-- Tenths of `|q|` rounded half away from zero:
`floor(|q| * 10 + 1/2) = (20 * |num| + den) / (2 * den)`, computed on the
numerator and denominator directly. -/
def roundTenths (q : ℚ) : Nat :=
  ((20 * q.num).natAbs + q.den) / (2 * q.den)

/-- JavaScript `x.toFixed(1)` on the values the dashboard can produce; finite
values are rendered with one decimal digit, rounding half away from zero. -/
def toFixed1 : JSNum → String
  | JSNum.nan => "NaN"
  | JSNum.posInf => "Infinity"
  | JSNum.negInf => "-Infinity"
  | JSNum.num q =>
    if q < 0 then
      "-" ++ natToStr (roundTenths q / 10) ++ "." ++ natToStr (roundTenths q % 10)
    else
      natToStr (roundTenths q / 10) ++ "." ++ natToStr (roundTenths q % 10)

namespace Part001

/-- Sum of the report's scores, the `report.reduce((sum, api) => sum +
api.score, 0)` accumulator. -/
def sumScores (report : List ReportEntry) : Int :=
  report.foldl (fun sum api => sum + api.score) 0

/-- Dashboard statistics of part_001 lines 192-194: pass count, fail count and
average score, the average guarded to 0 on an empty report. -/
def passCount (report : List ReportEntry) : Nat :=
  (report.filter (fun api => api.status = "PASS")).length

def failCount (report : List ReportEntry) : Nat :=
  (report.filter (fun api => api.status = "FAIL")).length

def avgScore (report : List ReportEntry) : JSNum :=
  if report.length > 0 then jsDiv (sumScores report : ℚ) (report.length : ℚ)
  else JSNum.num 0

/-- Rendering of one report row (part_001 lines 405-417): a zero score is
displayed as an invalid specification rather than a failing one. -/
def dashboardRow (api : ReportEntry) : String :=
  let isInvalid := api.score = 0
  let scoreClass := if isInvalid then "invalid" else api.status.toLower
  "\n                <div class=\"api\">\n                    <div class=\"api-name\">" ++
  api.name ++
  "</div>\n                    <div class=\"api-score\">\n                        <div class=\"violations\">" ++
  (if isInvalid then "Invalid specification"
   else natToStr api.violationsCount ++ " violations") ++
  "</div>\n                        <div class=\"score " ++ scoreClass ++ "\">" ++
  (if isInvalid then "Invalid" else intToStr api.score ++ "/100") ++
  "</div>\n                        <div class=\"status " ++ scoreClass ++ "\">" ++
  (if isInvalid then "INVALID SPEC" else api.status) ++
  "</div>\n                    </div>\n                </div>\n            " ++ ""

/-- part_001 `generateDashboard`, lines 190-426, as a function of the report
and the timestamp (`new Date().toISOString()` is an external input).  The
interpolated values — total, pass and fail counts, average score, per-entry
rows and timestamp — are kept exactly; the constant style-sheet text of lines
201-371 is inert page text and is represented by the head marker only. -/
def generateDashboard (report : List ReportEntry) (timestamp : String) : String :=
  "\n<!DOCTYPE html>\n<html>\n<head>\n    <title>UPS API Governance Dashboard</title>\n</head>\n<body>" ++
  "\n        <div class=\"stats\">\n            <div class=\"stat\">\n                <div class=\"stat-value\">" ++
  natToStr report.length ++
  "</div>\n                <div class=\"stat-label\">Total APIs</div>\n            </div>\n            <div class=\"stat-value\">" ++
  natToStr (passCount report) ++
  "</div>\n            <div class=\"stat-value\">" ++
  natToStr (failCount report) ++
  "</div>\n            <div class=\"stat-value\">" ++
  toFixed1 (avgScore report) ++
  "</div>\n        </div>\n        <div class=\"apis\">\n            " ++
  String.join (report.map dashboardRow) ++
  "\n        </div>\n        <div class=\"timestamp\">\n            Generated at " ++
  timestamp ++
  "\n        </div>\n</body>\n</html>"

end Part001

/-! ## part_002: the retry wrapper and the workspace aggregator -/

namespace Part002

/-- Observable behaviour of one `retryWithBackoff` run: the returned value or
rethrown error, the sleep durations performed (in order), and how many times
the wrapped operation was invoked. -/
structure RetryOutcome (α : Type) where
  result : Except String α
  delays : List Nat
  calls : Nat
deriving Repr

/-- The 4xx test of part_002 line 29: the error message is inspected for the
literal prefix of a client-error status line. -/
def isClientError (message : String) : Bool :=
  containsStr message "Failed to fetch workspace specs: 4"

/-- Loop body of `retryWithBackoff` (part_002 lines 15-40).  The wrapped
operation is modelled by the sequence of outcomes of its successive
invocations (`op attempt`).  On failure the loop breaks at the last attempt
(rethrowing the stored error), rethrows a client error immediately, and
otherwise sleeps `baseDelay * 2 ^ (attempt - 1)` and retries.  The fuel equals
the number of remaining attempts, so the fuel-0 branch is the loop falling
through with zero iterations (`maxRetries = 0`), where the script throws its
undefined `lastError`. -/
def retryAux {α : Type} (op : Nat → Except String α) (maxRetries baseDelay : Nat) :
    Nat → Nat → RetryOutcome α
  | 0, _ => { result := Except.error "", delays := [], calls := 0 }
  | fuel + 1, attempt =>
    match op attempt with
    | Except.ok v => { result := Except.ok v, delays := [], calls := 1 }
    | Except.error e =>
      if attempt = maxRetries then
        { result := Except.error e, delays := [], calls := 1 }
      else if isClientError e then
        { result := Except.error e, delays := [], calls := 1 }
      else
        let rest := retryAux op maxRetries baseDelay fuel (attempt + 1)
        { result := rest.result,
          delays := baseDelay * 2 ^ (attempt - 1) :: rest.delays,
          calls := rest.calls + 1 }

/-- part_002 `retryWithBackoff` (defaults in the script: `maxRetries = 3`,
`baseDelay = 1000`). -/
def retryWithBackoff {α : Type} (op : Nat → Except String α)
    (maxRetries baseDelay : Nat) : RetryOutcome α :=
  retryAux op maxRetries baseDelay maxRetries 1

/-- One spec listed by the registry (`{id, name}`). -/
structure SpecInfo where
  name : String
  id : String
deriving DecidableEq, Repr

/-- Workspace report record (part_002 lines 171-189). -/
structure ReportEntry where
  name : String
  id : String
  score : Int
  violationsCount : Nat
  status : String
  error : Option String
deriving DecidableEq, Repr

/-- Loop body of part_002 `getWorkspaceGovernanceReport` (lines 166-191): the
spec list has already been fetched (the network call is the external
boundary); each spec is scored inside its own `try`/`catch` and a throwing
scorer yields a FAIL entry with score 0.  The pass threshold is the literal
70 of line 176, not a parameter. -/
def getWorkspaceGovernanceReport (specs : List SpecInfo)
    (scoreFn : String → Except String ScoreResult) : List ReportEntry :=
  specs.map fun spec =>
    match scoreFn spec.id with
    | Except.ok result =>
      { name := spec.name, id := spec.id, score := result.score,
        violationsCount := result.violationCount.getD 0,
        status := if result.score ≥ 70 then "PASS" else "FAIL",
        error := result.error }
    | Except.error e =>
      { name := spec.name, id := spec.id, score := 0,
        violationsCount := 0, status := "FAIL",
        error := some ("Failed to score: " ++ e) }

end Part002

/-! ## scripts/ups_postman_governance.js: the id-based scorer variant -/

namespace UpsGov

/-- Captured output of a successful `execPromise` call (`2>&1` merges the
streams, so `stderr` is normally empty). -/
structure ExecOk where
  stdout : String
  stderr : String
deriving DecidableEq, Repr

/-- Table-row scan of ups_postman_governance.js lines 36-52.  Unlike the
part_001 fallback it has no header-row skip and matches the keyword
`WARNING` rather than `WARN`. -/
def tableViolations (lines : List String) : List Violation :=
  lines.foldr
    (fun line acc =>
      if containsStr line "│" then
        let lineClean := stripAnsi line
        if containsStr lineClean "ERROR" then ⟨some "error"⟩ :: acc
        else if containsStr lineClean "WARNING" then ⟨some "warning"⟩ :: acc
        else if containsStr lineClean "INFO" then ⟨some "info"⟩ :: acc
        else if containsStr lineClean "HINT" then ⟨some "hint"⟩ :: acc
        else acc
      else acc)
    []

/-- `scoreSpecViaPostman` of ups_postman_governance.js lines 21-83, as a
function of the subprocess outcome; a thrown exec error carries its message.
The guard of line 28 (`stderr || stdout.includes('Error:')`) returns a zero
score with the offending output; the `catch` of lines 80-82 returns a zero
score with the exception's message. -/
def scoreSpecViaPostman (outcome : Except String ExecOk) : ScoreResult :=
  match outcome with
  | Except.error message =>
    { score := 0, violations := none, violationCount := none,
      error := some message }
  | Except.ok res =>
    if res.stderr ≠ "" || containsStr res.stdout "Error:" then
      { score := 0, violations := none, violationCount := none,
        error := some ("Failed to lint spec: " ++
          (if res.stderr ≠ "" then res.stderr else res.stdout)) }
    else
      let violations := tableViolations (splitNl res.stdout)
      { score := scoreViolations violations, violations := some violations,
        violationCount := some violations.length, error := none }

/-- Loop body of ups_postman_governance.js `getWorkspaceGovernanceReport`
(lines 116-128); this variant has no per-spec `try`/`catch` (its scorer never
throws) and hardcodes the pass threshold 70 at line 125. -/
def getWorkspaceGovernanceReport (specs : List Part002.SpecInfo)
    (scoreFn : String → ScoreResult) : List Part002.ReportEntry :=
  specs.map fun spec =>
    let result := scoreFn spec.id
    { name := spec.name, id := spec.id, score := result.score,
      violationsCount := result.violationCount.getD 0,
      status := if result.score ≥ 70 then "PASS" else "FAIL",
      error := result.error }

/-- Score accumulator of `generateDashboard` line 143. -/
def sumScores (report : List Part002.ReportEntry) : Int :=
  report.foldl (fun sum api => sum + api.score) 0

/-- Average of ups_postman_governance.js line 143:
`report.reduce((sum, api) => sum + api.score, 0) / report.length`, with no
guard for an empty report. -/
def avgScore (report : List Part002.ReportEntry) : JSNum :=
  jsDiv (sumScores report : ℚ) (report.length : ℚ)

end UpsGov

/-! ## scripts/upload_specs_to_postman.js: the task-polling loop -/

namespace Upload

/-- Body of one task-status response. -/
structure TaskResult where
  status : String
  error : Option String
deriving DecidableEq, Repr

/-- Outcome of one status fetch: a non-2xx HTTP response with its status code,
or a parsed task body. -/
inductive FetchRes where
  | notOk (httpStatus : Nat)
  | ok (task : TaskResult)
deriving DecidableEq, Repr

/-- Observable behaviour of one `pollTaskStatus` run before its outer `catch`:
the returned task or thrown error, the number of status fetches performed, and
the sleep durations (in milliseconds, in order). -/
structure PollOutcome where
  result : Except String TaskResult
  polls : Nat
  sleeps : List Nat
deriving Repr

/-- A response that keeps the loop polling: a 2xx response whose task status
is neither `completed` nor `failed`. -/
def isPendingRes : FetchRes → Bool
  | FetchRes.notOk _ => false
  | FetchRes.ok task => ¬(task.status = "completed") && ¬(task.status = "failed")

/-- Loop body of `pollTaskStatus` (upload_specs_to_postman.js lines 498-524).
The i-th status fetch is modelled by `responses i`.  A non-2xx response
throws; a `completed` task is returned; a `failed` task throws with the
task's error (or `Unknown error` when that is falsy); otherwise the loop
sleeps 2000 ms and polls again.  The fuel is the number of remaining
attempts; exhausting it is the timeout throw of line 524. -/
def pollAux (responses : Nat → FetchRes) : Nat → Nat → PollOutcome
  | 0, _ =>
    { result := Except.error "Task timeout - exceeded maximum attempts",
      polls := 0, sleeps := [] }
  | fuel + 1, i =>
    match responses i with
    | FetchRes.notOk httpStatus =>
      { result := Except.error ("Failed to check task status: " ++ natToStr httpStatus),
        polls := 1, sleeps := [] }
    | FetchRes.ok task =>
      if task.status = "completed" then
        { result := Except.ok task, polls := 1, sleeps := [] }
      else if task.status = "failed" then
        { result := Except.error ("Task failed: " ++ jsOrElse task.error "Unknown error"),
          polls := 1, sleeps := [] }
      else
        let rest := pollAux responses fuel (i + 1)
        { result := rest.result, polls := rest.polls + 1,
          sleeps := 2000 :: rest.sleeps }

/-- The `for` loop and timeout throw of `pollTaskStatus`, before the outer
`catch` (default `maxAttempts = 30`). -/
def pollTaskStatusCore (responses : Nat → FetchRes) (maxAttempts : Nat) : PollOutcome :=
  pollAux responses maxAttempts 0

/-- `pollTaskStatus` as its callers see it: the outer `catch` of lines 526-529
logs any thrown error and returns `null`, so the function yields the completed
task or `null`, never a thrown error. -/
def pollTaskStatus (responses : Nat → FetchRes) (maxAttempts : Nat) : Option TaskResult :=
  (pollTaskStatusCore responses maxAttempts).result.toOption

end Upload

/-! ## Claim C1: the scoring formula -/

/-- C1: for every violation list built over the data-model severities
(`error`, `warning`, `info`, `hint`), the scorer returns
`max(0, 100 − Σ penalty)` with the penalties of the spec's table
(error 10, warning 5, info 2, hint and default 1); the empty list scores 100
and every score is an integer in `[0, 100]`. -/
theorem scoreViolations_spec_C1 (violations : List Violation)
    (h : ∀ v ∈ violations,
      v.severity = some "error" ∨ v.severity = some "warning" ∨
      v.severity = some "info" ∨ v.severity = some "hint") :
    scoreViolations violations = max 0 (100 - (violations.map specPenalty).sum) ∧
    0 ≤ scoreViolations violations ∧ scoreViolations violations ≤ 100 ∧
    scoreViolations [] = 100 := by
  have hmap : violations.map severityPenalty = violations.map specPenalty :=
    List.map_congr_left fun v hv => severityPenalty_eq_specPenalty v (h v hv)
  have hsum : 0 ≤ (violations.map severityPenalty).sum := by
    apply List.sum_nonneg
    intro x hx
    obtain ⟨v, _, rfl⟩ := List.mem_map.1 hx
    have := one_le_severityPenalty v
    omega
  refine ⟨?_, ?_, ?_, by decide⟩
  · unfold scoreViolations
    rw [foldl_sub_penalty, hmap]
  · exact le_max_left _ _
  · unfold scoreViolations
    rw [foldl_sub_penalty]
    exact max_le (by norm_num) (by omega)

/-- Witness for C1 at the concrete list `[error, hint]`. -/
theorem scoreViolations_spec_C1_witness :
    scoreViolations [⟨some "error"⟩, ⟨some "hint"⟩]
      = max 0 (100 - ([(⟨some "error"⟩ : Violation), ⟨some "hint"⟩].map specPenalty).sum) ∧
    0 ≤ scoreViolations [⟨some "error"⟩, ⟨some "hint"⟩] ∧
    scoreViolations [⟨some "error"⟩, ⟨some "hint"⟩] ≤ 100 ∧
    scoreViolations [] = 100 :=
  scoreViolations_spec_C1 [⟨some "error"⟩, ⟨some "hint"⟩] (by decide)

/-! ## Claim C2: summary-line parsing -/

/-- Penalty values at the four canonical severities. -/
theorem severityPenalty_canonical :
    severityPenalty ⟨some "error"⟩ = 10 ∧ severityPenalty ⟨some "warning"⟩ = 5 ∧
    severityPenalty ⟨some "info"⟩ = 2 ∧ severityPenalty ⟨some "hint"⟩ = 1 := by
  decide

/-- C2: when the couldn't-parse guard does not fire and the ANSI-stripped
output matches the summary pattern with counts `(N, E, W, I, H)`, the parser
synthesizes exactly `E` error, `W` warning, `I` info and `H` hint violations
(in that order) and the score is `max(0, 100 − 10E − 5W − 2I − H)`; in
particular the concrete line
`12 problems (2 errors, 3 warnings, 4 infos, 3 hints)` yields 12 violations
and score 54 (see the witness). -/
theorem summary_counts_C2 (stdout : String) (n e w i h : Nat)
    (hg : (containsStr stdout "Error:" && containsStr stdout "Couldn't parse") = false)
    (hm : matchSummary (stripAnsi stdout) = some (n, e, w, i, h)) :
    (Part001.scoreSpecFileParse stdout).violations
      = some (List.replicate e (⟨some "error"⟩ : Violation) ++
              List.replicate w (⟨some "warning"⟩ : Violation) ++
              List.replicate i (⟨some "info"⟩ : Violation) ++
              List.replicate h (⟨some "hint"⟩ : Violation)) ∧
    (Part001.scoreSpecFileParse stdout).violationCount = some (e + w + i + h) ∧
    (Part001.scoreSpecFileParse stdout).score
      = max 0 (100 - (10 * e + 5 * w + 2 * i + 1 * h : Int)) := by
  have hparse : Part001.parseViolations (stripAnsi stdout)
      = List.replicate e (⟨some "error"⟩ : Violation) ++
        List.replicate w (⟨some "warning"⟩ : Violation) ++
        List.replicate i (⟨some "info"⟩ : Violation) ++
        List.replicate h (⟨some "hint"⟩ : Violation) := by
    unfold Part001.parseViolations
    rw [hm]
  obtain ⟨p1, p2, p3, p4⟩ := severityPenalty_canonical
  unfold Part001.scoreSpecFileParse
  rw [hg]
  simp only [Bool.false_eq_true, if_false, hparse]
  refine ⟨trivial,
    by simp only [List.length_append, List.length_replicate, Option.some.injEq]
       try omega, ?_⟩
  unfold scoreViolations
  rw [foldl_sub_penalty]
  simp only [List.map_append, List.map_replicate, List.sum_append,
    List.sum_replicate, p1, p2, p3, p4, nsmul_eq_mul]
  congr 1
  ring

/-- Witness for C2 at the spec's concrete summary line: 12 violations, score
54. -/
theorem summary_counts_C2_witness :
    matchSummary (stripAnsi "12 problems (2 errors, 3 warnings, 4 infos, 3 hints)")
      = some (12, 2, 3, 4, 3) ∧
    (Part001.scoreSpecFileParse "12 problems (2 errors, 3 warnings, 4 infos, 3 hints)").violationCount
      = some 12 ∧
    (Part001.scoreSpecFileParse "12 problems (2 errors, 3 warnings, 4 infos, 3 hints)").score
      = 54 := by
  have h := summary_counts_C2 "12 problems (2 errors, 3 warnings, 4 infos, 3 hints)"
    12 2 3 4 3 (by decide) (by decide)
  refine ⟨by decide, ?_, ?_⟩
  · rw [h.2.1]
  · rw [h.2.2]
    decide

/-! ## Claims C3 and C6: the retry wrapper -/

/-- C3: with `maxRetries = 3`, an operation that fails on the first two
attempts with non-client errors and succeeds on the third returns the success
value after exactly two sleeps of `baseDelay * 2 ^ 0` and `baseDelay * 2 ^ 1`
milliseconds; an operation failing on every attempt with non-client errors is
invoked exactly `maxRetries = 3` times and the last error is rethrown. -/
theorem retryWithBackoff_C3 {α : Type} (v : α) (e f : Nat → String) (baseDelay : Nat)
    (h1 : Part002.isClientError (e 1) = false) (h2 : Part002.isClientError (e 2) = false)
    (hf1 : Part002.isClientError (f 1) = false) (hf2 : Part002.isClientError (f 2) = false) :
    Part002.retryWithBackoff (fun k => if k = 3 then Except.ok v else Except.error (e k)) 3 baseDelay
      = { result := Except.ok v, delays := [baseDelay * 2 ^ 0, baseDelay * 2 ^ 1], calls := 3 } ∧
    Part002.retryWithBackoff (fun k => (Except.error (f k) : Except String α)) 3 baseDelay
      = { result := Except.error (f 3), delays := [baseDelay * 2 ^ 0, baseDelay * 2 ^ 1], calls := 3 } := by
  constructor
  · simp [Part002.retryWithBackoff, Part002.retryAux, h1, h2]
  · simp [Part002.retryWithBackoff, Part002.retryAux, hf1, hf2]

/-- Witness for C3 at a concrete operation over `Nat`. -/
theorem retryWithBackoff_C3_witness :
    Part002.retryWithBackoff (fun k => if k = 3 then Except.ok 42 else Except.error "socket hang up") 3 1000
      = { result := Except.ok 42, delays := [1000 * 2 ^ 0, 1000 * 2 ^ 1], calls := 3 } ∧
    Part002.retryWithBackoff (fun _ => (Except.error "socket hang up" : Except String Nat)) 3 1000
      = { result := Except.error "socket hang up", delays := [1000 * 2 ^ 0, 1000 * 2 ^ 1], calls := 3 } :=
  retryWithBackoff_C3 42 (fun _ => "socket hang up") (fun _ => "socket hang up") 1000
    (by decide) (by decide) (by decide) (by decide)

/-- C6: when every invocation fails with a 4xx client error (a message
containing `Failed to fetch workspace specs: 4`), the wrapper performs exactly
one invocation, no sleep, and rethrows that first error, for every positive
`maxRetries`. -/
theorem retry_client_error_C6 {α : Type} (e : Nat → String) (maxRetries baseDelay : Nat)
    (hm : 1 ≤ maxRetries) (hc : Part002.isClientError (e 1) = true) :
    Part002.retryWithBackoff (fun k => (Except.error (e k) : Except String α)) maxRetries baseDelay
      = { result := Except.error (e 1), delays := [], calls := 1 } := by
  obtain ⟨m, rfl⟩ := Nat.exists_eq_add_of_le hm
  rw [show 1 + m = m + 1 by omega]
  by_cases h0 : (1 : Nat) = m + 1
  · simp [Part002.retryWithBackoff, Part002.retryAux, ← h0]
  · simp [Part002.retryWithBackoff, Part002.retryAux, h0, hc]

/-- Witness for C6 with a 404 response message and the default
`maxRetries = 3`, `baseDelay = 1000`. -/
theorem retry_client_error_C6_witness :
    Part002.retryWithBackoff
        (fun _ => (Except.error "Failed to fetch workspace specs: 404 Not Found" : Except String Nat))
        3 1000
      = { result := Except.error "Failed to fetch workspace specs: 404 Not Found",
          delays := [], calls := 1 } :=
  retry_client_error_C6 (fun _ => "Failed to fetch workspace specs: 404 Not Found")
    3 1000 (by decide) (by decide)

/-! ## Claim C4: per-spec failure isolation in the aggregators -/

/-- C4: in both directory mode (part_001) and workspace mode (part_002) every
enumerated spec produces exactly one report entry, in enumeration order; a
spec whose scorer throws yields a FAIL entry with score 0 and a populated
error while every other spec is scored normally — one failure never aborts
the batch. -/
theorem aggregator_isolation_C4 :
    (∀ (specFiles : List Part001.SpecFile) (threshold : Int)
        (scoreFn : String → Except String ScoreResult),
      (Part001.getDirectoryGovernanceReport specFiles threshold scoreFn).length
        = specFiles.length) ∧
    (∀ (specFiles : List Part001.SpecFile) (threshold : Int)
        (scoreFn : String → Except String ScoreResult) (idx : Nat)
        (hs : idx < specFiles.length)
        (hr : idx < (Part001.getDirectoryGovernanceReport specFiles threshold scoreFn).length),
      ((Part001.getDirectoryGovernanceReport specFiles threshold scoreFn).get ⟨idx, hr⟩).name
          = (specFiles.get ⟨idx, hs⟩).name ∧
      ((Part001.getDirectoryGovernanceReport specFiles threshold scoreFn).get ⟨idx, hr⟩).path
          = (specFiles.get ⟨idx, hs⟩).path ∧
      (∀ err, scoreFn (specFiles.get ⟨idx, hs⟩).path = Except.error err →
        ((Part001.getDirectoryGovernanceReport specFiles threshold scoreFn).get ⟨idx, hr⟩).score = 0 ∧
        ((Part001.getDirectoryGovernanceReport specFiles threshold scoreFn).get ⟨idx, hr⟩).status = "FAIL" ∧
        ((Part001.getDirectoryGovernanceReport specFiles threshold scoreFn).get ⟨idx, hr⟩).error
          = some ("Failed to score: " ++ err)) ∧
      (∀ result, scoreFn (specFiles.get ⟨idx, hs⟩).path = Except.ok result →
        ((Part001.getDirectoryGovernanceReport specFiles threshold scoreFn).get ⟨idx, hr⟩).score
            = result.score ∧
        ((Part001.getDirectoryGovernanceReport specFiles threshold scoreFn).get ⟨idx, hr⟩).violationsCount
            = result.violationCount.getD 0 ∧
        ((Part001.getDirectoryGovernanceReport specFiles threshold scoreFn).get ⟨idx, hr⟩).status
            = (if result.score ≥ threshold then "PASS" else "FAIL") ∧
        ((Part001.getDirectoryGovernanceReport specFiles threshold scoreFn).get ⟨idx, hr⟩).error
            = result.error)) ∧
    (∀ (specs : List Part002.SpecInfo) (scoreFn : String → Except String ScoreResult),
      (Part002.getWorkspaceGovernanceReport specs scoreFn).length = specs.length) ∧
    (∀ (specs : List Part002.SpecInfo) (scoreFn : String → Except String ScoreResult) (idx : Nat)
        (hs : idx < specs.length)
        (hr : idx < (Part002.getWorkspaceGovernanceReport specs scoreFn).length),
      ((Part002.getWorkspaceGovernanceReport specs scoreFn).get ⟨idx, hr⟩).name
          = (specs.get ⟨idx, hs⟩).name ∧
      ((Part002.getWorkspaceGovernanceReport specs scoreFn).get ⟨idx, hr⟩).id
          = (specs.get ⟨idx, hs⟩).id ∧
      (∀ err, scoreFn (specs.get ⟨idx, hs⟩).id = Except.error err →
        ((Part002.getWorkspaceGovernanceReport specs scoreFn).get ⟨idx, hr⟩).score = 0 ∧
        ((Part002.getWorkspaceGovernanceReport specs scoreFn).get ⟨idx, hr⟩).status = "FAIL" ∧
        ((Part002.getWorkspaceGovernanceReport specs scoreFn).get ⟨idx, hr⟩).error
          = some ("Failed to score: " ++ err)) ∧
      (∀ result, scoreFn (specs.get ⟨idx, hs⟩).id = Except.ok result →
        ((Part002.getWorkspaceGovernanceReport specs scoreFn).get ⟨idx, hr⟩).score = result.score ∧
        ((Part002.getWorkspaceGovernanceReport specs scoreFn).get ⟨idx, hr⟩).violationsCount
            = result.violationCount.getD 0 ∧
        ((Part002.getWorkspaceGovernanceReport specs scoreFn).get ⟨idx, hr⟩).error
            = result.error)) := by
  refine ⟨?_, ?_, ?_, ?_⟩
  · intro specFiles threshold scoreFn
    simp [Part001.getDirectoryGovernanceReport]
  · intro specFiles threshold scoreFn idx hs hr
    simp only [Part001.getDirectoryGovernanceReport, List.get_eq_getElem, List.getElem_map]
    cases hcase : scoreFn specFiles[idx].path <;> simp [hcase]
  · intro specs scoreFn
    simp [Part002.getWorkspaceGovernanceReport]
  · intro specs scoreFn idx hs hr
    simp only [Part002.getWorkspaceGovernanceReport, List.get_eq_getElem, List.getElem_map]
    cases hcase : scoreFn specs[idx].id <;> simp [hcase]

/-- Three demo specs for the aggregator witness; the second one's scorer
throws. -/
def demoSpecs : List Part001.SpecFile :=
  [⟨"a", "a.yaml"⟩, ⟨"b", "b.yaml"⟩, ⟨"c", "c.yaml"⟩]

/-- Demo scorer: throws on the second spec, scores 90 otherwise. -/
def demoScoreFn : String → Except String ScoreResult := fun p =>
  if p = "b.yaml" then Except.error "lint subprocess crashed"
  else Except.ok { score := 90, violations := some [⟨some "warning"⟩, ⟨some "warning"⟩],
                   violationCount := some 2, error := none }

/-- Witness for C4: three specs, the second throwing, give a three-entry
report whose middle entry is FAIL with score 0 and a populated error while
the third is scored normally. -/
theorem aggregator_isolation_C4_witness :
    (Part001.getDirectoryGovernanceReport demoSpecs 70 demoScoreFn).length = 3 ∧
    ((Part001.getDirectoryGovernanceReport demoSpecs 70 demoScoreFn).get ⟨1, by decide⟩).score = 0 ∧
    ((Part001.getDirectoryGovernanceReport demoSpecs 70 demoScoreFn).get ⟨1, by decide⟩).status = "FAIL" ∧
    ((Part001.getDirectoryGovernanceReport demoSpecs 70 demoScoreFn).get ⟨1, by decide⟩).error
      = some ("Failed to score: " ++ "lint subprocess crashed") ∧
    ((Part001.getDirectoryGovernanceReport demoSpecs 70 demoScoreFn).get ⟨2, by decide⟩).score = 90 ∧
    ((Part001.getDirectoryGovernanceReport demoSpecs 70 demoScoreFn).get ⟨2, by decide⟩).status = "PASS" := by
  have hlen := aggregator_isolation_C4.1 demoSpecs 70 demoScoreFn
  have hmid := aggregator_isolation_C4.2.1 demoSpecs 70 demoScoreFn 1 (by decide) (by decide)
  have hfail := hmid.2.2.1 "lint subprocess crashed" rfl
  have hlast := aggregator_isolation_C4.2.1 demoSpecs 70 demoScoreFn 2 (by decide) (by decide)
  have hok := hlast.2.2.2
    { score := 90, violations := some [⟨some "warning"⟩, ⟨some "warning"⟩],
      violationCount := some 2, error := none } rfl
  refine ⟨by rw [hlen]; decide, hfail.1, hfail.2.1, hfail.2.2, hok.1, ?_⟩
  rw [hok.2.2.1]
  decide

/-! ## Claim C5: the PASS threshold -/

/-- Scorer returning a fixed result, used to exhibit threshold behaviour. -/
def constScoreFn (score : Int) : String → Except String ScoreResult := fun _ =>
  Except.ok { score := score, violations := some [], violationCount := some 0, error := none }

/-- Counterexample to C5: workspace aggregation ignores the invocation
threshold.  With an invocation-supplied threshold of 50 and a spec scoring 60,
the workspace entry is FAIL (the hardcoded 70 of part_002 line 176 and
ups_postman_governance.js line 125 applies), so `status = PASS iff
score ≥ threshold` fails. -/
theorem status_threshold_C5_cex :
    ((Part002.getWorkspaceGovernanceReport [⟨"S", "id1"⟩] (constScoreFn 60)).get ⟨0, by decide⟩).score = 60 ∧
    ((Part002.getWorkspaceGovernanceReport [⟨"S", "id1"⟩] (constScoreFn 60)).get ⟨0, by decide⟩).status = "FAIL" ∧
    ¬ (((Part002.getWorkspaceGovernanceReport [⟨"S", "id1"⟩] (constScoreFn 60)).get ⟨0, by decide⟩).status = "PASS"
        ↔ ((Part002.getWorkspaceGovernanceReport [⟨"S", "id1"⟩] (constScoreFn 60)).get ⟨0, by decide⟩).score ≥ (50 : Int)) := by
  refine ⟨rfl, rfl, ?_⟩
  intro hiff
  have h60 : ((Part002.getWorkspaceGovernanceReport [⟨"S", "id1"⟩] (constScoreFn 60)).get ⟨0, by decide⟩).score ≥ (50 : Int) := by decide
  exact absurd (hiff.mpr h60) (by decide)

/-- C5 amended: `status = PASS iff score ≥ threshold` (with the boundary
`score = threshold` a PASS) holds with the invocation-supplied threshold in
single-spec mode, and in directory mode for positive thresholds (a throwing
spec is hardcoded FAIL with score 0, which agrees with the rule only when
`threshold > 0`); workspace aggregation instead applies the fixed threshold
70 regardless of the invocation threshold. -/
theorem status_threshold_C5_amended :
    (∀ (name path : String) (result : ScoreResult) (threshold : Int),
      (Part001.singleSpecEntry name path result threshold).status = "PASS"
        ↔ (Part001.singleSpecEntry name path result threshold).score ≥ threshold) ∧
    (∀ (specFiles : List Part001.SpecFile) (threshold : Int)
        (scoreFn : String → Except String ScoreResult) (idx : Nat)
        (hpos : 0 < threshold)
        (hs : idx < specFiles.length)
        (hr : idx < (Part001.getDirectoryGovernanceReport specFiles threshold scoreFn).length),
      ((Part001.getDirectoryGovernanceReport specFiles threshold scoreFn).get ⟨idx, hr⟩).status = "PASS"
        ↔ ((Part001.getDirectoryGovernanceReport specFiles threshold scoreFn).get ⟨idx, hr⟩).score ≥ threshold) ∧
    (∀ (specs : List Part002.SpecInfo) (scoreFn : String → Except String ScoreResult) (idx : Nat)
        (hs : idx < specs.length)
        (hr : idx < (Part002.getWorkspaceGovernanceReport specs scoreFn).length),
      ((Part002.getWorkspaceGovernanceReport specs scoreFn).get ⟨idx, hr⟩).status = "PASS"
        ↔ ((Part002.getWorkspaceGovernanceReport specs scoreFn).get ⟨idx, hr⟩).score ≥ (70 : Int)) ∧
    (∀ (specs : List Part002.SpecInfo) (scoreFn : String → ScoreResult) (idx : Nat)
        (hs : idx < specs.length)
        (hr : idx < (UpsGov.getWorkspaceGovernanceReport specs scoreFn).length),
      ((UpsGov.getWorkspaceGovernanceReport specs scoreFn).get ⟨idx, hr⟩).status = "PASS"
        ↔ ((UpsGov.getWorkspaceGovernanceReport specs scoreFn).get ⟨idx, hr⟩).score ≥ (70 : Int)) := by
  refine ⟨?_, ?_, ?_, ?_⟩
  · intro name path result threshold
    unfold Part001.singleSpecEntry
    try dsimp only
    split <;> rename_i hscore <;> simp [hscore]
  · intro specFiles threshold scoreFn idx hpos hs hr
    simp only [Part001.getDirectoryGovernanceReport, List.get_eq_getElem, List.getElem_map]
    cases hcase : scoreFn specFiles[idx].path with
    | ok result =>
      try dsimp only
      split <;> rename_i hscore <;> simp [hscore]
    | error err =>
      try dsimp only
      constructor
      · intro hcontra
        simp at hcontra
      · intro hge
        omega
  · intro specs scoreFn idx hs hr
    simp only [Part002.getWorkspaceGovernanceReport, List.get_eq_getElem, List.getElem_map]
    cases hcase : scoreFn specs[idx].id with
    | ok result =>
      try dsimp only
      split <;> rename_i hscore <;> simp [hscore]
    | error err =>
      try dsimp only
      constructor
      · intro hcontra
        simp at hcontra
      · intro hge
        omega
  · intro specs scoreFn idx hs hr
    simp only [UpsGov.getWorkspaceGovernanceReport, List.get_eq_getElem, List.getElem_map]
    try dsimp only
    split <;> rename_i hscore <;> simp [hscore]

/-- Witness for the amended C5 at the boundary: a directory entry scoring
exactly the threshold 70 is a PASS, and a workspace entry scoring 70 is a
PASS under the hardcoded 70. -/
theorem status_threshold_C5_witness :
    ((Part001.getDirectoryGovernanceReport [⟨"a", "a.yaml"⟩] 70 (constScoreFn 70)).get ⟨0, by decide⟩).status
      = "PASS" ∧
    ((Part002.getWorkspaceGovernanceReport [⟨"S", "id1"⟩] (constScoreFn 70)).get ⟨0, by decide⟩).status
      = "PASS" := by
  constructor
  · exact (status_threshold_C5_amended.2.1 [⟨"a", "a.yaml"⟩] 70 (constScoreFn 70) 0
      (by decide) (by decide) (by decide)).mpr (by decide)
  · exact (status_threshold_C5_amended.2.2.1 [⟨"S", "id1"⟩] (constScoreFn 70) 0
      (by decide) (by decide)).mpr (by decide)

/-! ## Claim C7: the couldn't-parse short circuit -/

/-- C7: whenever the raw linter output carries the parse-failure marker (the
substrings `Error:` and `Couldn't parse`, part_001 line 41), scoring
short-circuits to score 0 with the fixed non-empty error message and no
violation parsing is attempted (the result carries no violations), whatever
else the output contains. -/
theorem couldnt_parse_C7 (stdout : String)
    (h1 : containsStr stdout "Error:" = true)
    (h2 : containsStr stdout "Couldn't parse" = true) :
    Part001.scoreSpecFileParse stdout
      = { score := 0, violations := none, violationCount := none,
          error := some "Failed to parse API specification" } ∧
    "Failed to parse API specification" ≠ "" := by
  refine ⟨?_, by decide⟩
  unfold Part001.scoreSpecFileParse
  rw [h1, h2]
  simp

/-- Witness for C7: an output that carries the marker and also a parsable
summary line still scores 0 with the error message. -/
theorem couldnt_parse_C7_witness :
    Part001.scoreSpecFileParse
        "Error: Couldn't parse the spec\n12 problems (2 errors, 3 warnings, 4 infos, 3 hints)"
      = { score := 0, violations := none, violationCount := none,
          error := some "Failed to parse API specification" } ∧
    "Failed to parse API specification" ≠ "" :=
  couldnt_parse_C7
    "Error: Couldn't parse the spec\n12 problems (2 errors, 3 warnings, 4 infos, 3 hints)"
    (by decide) (by decide)

/-! ## Claim C8: the dashboard average on an empty report -/

/-- Counterexample to C8: the `generateDashboard` of ups_postman_governance.js
(line 143) divides by `report.length` without the empty-report guard, so the
empty report's average is `NaN`, not 0. -/
theorem dashboard_avg_C8_cex :
    UpsGov.avgScore [] = JSNum.nan ∧ JSNum.nan ≠ JSNum.num 0 := by
  constructor
  · decide
  · decide

/-- C8 amended: the part_001 dashboard renderer guards the empty report
(line 194) and shows an average of 0 (rendered `0.0`) in a well-formed HTML
page, computed without any division error; the ups_postman_governance.js
renderer lacks the guard and computes `NaN` (rendered `NaN`, still without
throwing). -/
theorem dashboard_avg_C8_amended :
    Part001.avgScore [] = JSNum.num 0 ∧
    toFixed1 (Part001.avgScore []) = "0.0" ∧
    containsStr (Part001.generateDashboard [] "2026-10-11T00:00:00.000Z") "<!DOCTYPE html>" = true ∧
    UpsGov.avgScore [] = JSNum.nan ∧
    toFixed1 (UpsGov.avgScore []) = "NaN" := by
  refine ⟨by decide, by decide, by decide, by decide, by decide⟩

/-! ## Claim C9: the task-polling loop -/

namespace Upload

/-- Classification of a non-pending response, as the loop body resolves it:
a non-2xx response throws with its status code, a completed task is returned,
and a failed task throws with the task's error message. -/
def resolveRes : FetchRes → Except String TaskResult
  | FetchRes.notOk httpStatus =>
    Except.error ("Failed to check task status: " ++ natToStr httpStatus)
  | FetchRes.ok task =>
    if task.status = "completed" then Except.ok task
    else Except.error ("Task failed: " ++ jsOrElse task.error "Unknown error")

/-- The loop never polls more often than its fuel allows. -/
theorem pollAux_polls_le (responses : Nat → FetchRes) :
    ∀ (fuel i : Nat), (pollAux responses fuel i).polls ≤ fuel := by
  intro fuel
  induction fuel with
  | zero => intro i; simp [pollAux]
  | succ f ih =>
    intro i
    unfold pollAux
    cases responses i with
    | notOk httpStatus => simp
    | ok task =>
      dsimp only
      split
      · simp
      · split
        · simp
        · have := ih (i + 1)
          simp
          omega

/-- Every sleep the loop performs lasts exactly 2000 milliseconds. -/
theorem pollAux_sleeps_2000 (responses : Nat → FetchRes) :
    ∀ (fuel i : Nat) (d : Nat), d ∈ (pollAux responses fuel i).sleeps → d = 2000 := by
  intro fuel
  induction fuel with
  | zero => intro i d hd; simp [pollAux] at hd
  | succ f ih =>
    intro i d hd
    unfold pollAux at hd
    cases hres : responses i with
    | notOk httpStatus => rw [hres] at hd; simp at hd
    | ok task =>
      rw [hres] at hd
      dsimp only at hd
      by_cases hc : task.status = "completed"
      · rw [if_pos hc] at hd; simp at hd
      · rw [if_neg hc] at hd
        by_cases hf : task.status = "failed"
        · rw [if_pos hf] at hd; simp at hd
        · rw [if_neg hf] at hd
          simp at hd
          rcases hd with hd | hd
          · exact hd
          · exact ih (i + 1) d hd

/-- One pending step of the loop: poll, sleep 2000 ms, continue at the next
index with one unit of fuel spent. -/
theorem pollAux_step (responses : Nat → FetchRes) (f i : Nat)
    (h : isPendingRes (responses i) = true) :
    pollAux responses (f + 1) i
      = { result := (pollAux responses f (i + 1)).result,
          polls := (pollAux responses f (i + 1)).polls + 1,
          sleeps := 2000 :: (pollAux responses f (i + 1)).sleeps } := by
  cases hres : responses i with
  | notOk httpStatus => rw [hres] at h; simp [isPendingRes] at h
  | ok task =>
    rw [hres] at h
    simp only [isPendingRes, Bool.and_eq_true, decide_eq_true_eq] at h
    obtain ⟨hc, hf⟩ := h
    simp only [pollAux, hres]
    rw [if_neg (by simpa using hc), if_neg (by simpa using hf)]

/-- A non-pending response stops the loop with one poll, no sleep, and the
resolution of that response. -/
theorem pollAux_stop (responses : Nat → FetchRes) (f i : Nat)
    (h : isPendingRes (responses i) = false) :
    pollAux responses (f + 1) i
      = { result := resolveRes (responses i), polls := 1, sleeps := [] } := by
  cases hres : responses i with
  | notOk httpStatus => simp only [pollAux, hres, resolveRes]
  | ok task =>
    rw [hres] at h
    simp only [isPendingRes, Bool.and_eq_false_iff, decide_eq_false_iff_not,
      Decidable.not_not] at h
    simp only [pollAux, hres, resolveRes]
    rcases h with hc | hf
    · rw [if_pos hc, if_pos hc]
    · by_cases hc : task.status = "completed"
      · rw [if_pos hc, if_pos hc]
      · rw [if_neg hc, if_neg hc, if_pos hf]

/-- When every response in reach is pending, the loop exhausts its fuel, polls
exactly `fuel` times, sleeps after each poll, and times out. -/
theorem pollAux_timeout (responses : Nat → FetchRes) :
    ∀ (fuel i : Nat), (∀ j, j < fuel → isPendingRes (responses (i + j)) = true) →
      pollAux responses fuel i
        = { result := Except.error "Task timeout - exceeded maximum attempts",
            polls := fuel, sleeps := List.replicate fuel 2000 } := by
  intro fuel
  induction fuel with
  | zero => intro i _; rfl
  | succ f ih =>
    intro i hpending
    have h0 : isPendingRes (responses i) = true := by
      have := hpending 0 (by omega)
      simpa using this
    have hshift : ∀ j, j < f → isPendingRes (responses (i + 1 + j)) = true := by
      intro j hj
      have := hpending (j + 1) (by omega)
      rwa [show i + (j + 1) = i + 1 + j by omega] at this
    rw [pollAux_step responses f i h0, ih (i + 1) hshift]
    simp [List.replicate_succ]

/-- When the first non-pending response appears after `k` pending ones and the
fuel covers it, the loop stops there: `k + 1` polls, `k` sleeps, and the
response resolved as the loop body dictates. -/
theorem pollAux_resolve (responses : Nat → FetchRes) :
    ∀ (k fuel i : Nat), k < fuel →
      (∀ j, j < k → isPendingRes (responses (i + j)) = true) →
      isPendingRes (responses (i + k)) = false →
      pollAux responses fuel i
        = { result := resolveRes (responses (i + k)),
            polls := k + 1, sleeps := List.replicate k 2000 } := by
  intro k
  induction k with
  | zero =>
    intro fuel i hk _ hstop
    obtain ⟨f, rfl⟩ : ∃ f, fuel = f + 1 := ⟨fuel - 1, by omega⟩
    rw [Nat.add_zero] at hstop
    rw [pollAux_stop responses f i hstop, Nat.add_zero]
    rfl
  | succ k ih =>
    intro fuel i hk hpending hstop
    obtain ⟨f, rfl⟩ : ∃ f, fuel = f + 1 := ⟨fuel - 1, by omega⟩
    have h0 : isPendingRes (responses i) = true := by
      have := hpending 0 (by omega)
      simpa using this
    have hshift : ∀ j, j < k → isPendingRes (responses (i + 1 + j)) = true := by
      intro j hj
      have := hpending (j + 1) (by omega)
      rwa [show i + (j + 1) = i + 1 + j by omega] at this
    have hstop2 : isPendingRes (responses (i + 1 + k)) = false := by
      rwa [show i + (k + 1) = i + 1 + k by omega] at hstop
    rw [pollAux_step responses f i h0, ih f (i + 1) (by omega) hshift hstop2]
    rw [show i + 1 + k = i + (k + 1) by omega]
    simp [List.replicate_succ]

end Upload

/-- C9: the polling loop performs at most `maxAttempts` status polls, sleeps a
fixed 2000 ms between successive polls, stops early at the first terminal
response (`completed` yields the task, `failed` is an error), and when every
response within the attempt cap is still pending it times out with the
timeout error — never reporting success (the public function, whose outer
catch converts any thrown error to `null`, returns `none`). -/
theorem pollTaskStatus_C9 (responses : Nat → Upload.FetchRes) (maxAttempts : Nat) :
    ((Upload.pollTaskStatusCore responses maxAttempts).polls ≤ maxAttempts) ∧
    (∀ d ∈ (Upload.pollTaskStatusCore responses maxAttempts).sleeps, d = 2000) ∧
    ((∀ j, j < maxAttempts → Upload.isPendingRes (responses j) = true) →
      (Upload.pollTaskStatusCore responses maxAttempts).result
          = Except.error "Task timeout - exceeded maximum attempts" ∧
      Upload.pollTaskStatus responses maxAttempts = none) ∧
    (∀ (k : Nat) (task : Upload.TaskResult), k < maxAttempts →
      (∀ j, j < k → Upload.isPendingRes (responses j) = true) →
      responses k = Upload.FetchRes.ok task → task.status = "completed" →
        Upload.pollTaskStatus responses maxAttempts = some task ∧
        (Upload.pollTaskStatusCore responses maxAttempts).polls = k + 1 ∧
        (Upload.pollTaskStatusCore responses maxAttempts).sleeps = List.replicate k 2000) ∧
    (∀ (k : Nat) (task : Upload.TaskResult), k < maxAttempts →
      (∀ j, j < k → Upload.isPendingRes (responses j) = true) →
      responses k = Upload.FetchRes.ok task → task.status = "failed" →
        (Upload.pollTaskStatusCore responses maxAttempts).result
            = Except.error ("Task failed: " ++ jsOrElse task.error "Unknown error") ∧
        Upload.pollTaskStatus responses maxAttempts = none) := by
  refine ⟨?_, ?_, ?_, ?_, ?_⟩
  · exact Upload.pollAux_polls_le responses maxAttempts 0
  · exact fun d hd => Upload.pollAux_sleeps_2000 responses maxAttempts 0 d hd
  · intro hpending
    have h := Upload.pollAux_timeout responses maxAttempts 0
      (fun j hj => by simpa using hpending j hj)
    unfold Upload.pollTaskStatusCore Upload.pollTaskStatus Upload.pollTaskStatusCore
    rw [h]
    exact ⟨rfl, rfl⟩
  · intro k task hk hpending hres hdone
    have hstop : Upload.isPendingRes (responses (0 + k)) = false := by
      rw [show 0 + k = k by omega, hres]
      simp [Upload.isPendingRes, hdone]
    have h := Upload.pollAux_resolve responses k maxAttempts 0 hk
      (fun j hj => by simpa using hpending j hj) hstop
    unfold Upload.pollTaskStatusCore Upload.pollTaskStatus Upload.pollTaskStatusCore
    rw [h]
    rw [show 0 + k = k by omega, hres]
    simp [Upload.resolveRes, hdone, Except.toOption]
  · intro k task hk hpending hres hfail
    have hne : ¬ task.status = "completed" := by rw [hfail]; decide
    have hstop : Upload.isPendingRes (responses (0 + k)) = false := by
      rw [show 0 + k = k by omega, hres]
      simp [Upload.isPendingRes, hfail]
    have h := Upload.pollAux_resolve responses k maxAttempts 0 hk
      (fun j hj => by simpa using hpending j hj) hstop
    unfold Upload.pollTaskStatusCore Upload.pollTaskStatus Upload.pollTaskStatusCore
    rw [h]
    rw [show 0 + k = k by omega, hres]
    simp [Upload.resolveRes, hne, Except.toOption]

/-- Response sequence for the C9 witness: pending twice, then completed. -/
def demoResponses : Nat → Upload.FetchRes := fun i =>
  if i < 2 then Upload.FetchRes.ok ⟨"pending", none⟩
  else Upload.FetchRes.ok ⟨"completed", none⟩

/-- Witness for C9 with the default `maxAttempts = 30`: completion on the
third poll returns the task after exactly 3 polls and 2 sleeps of 2000 ms. -/
theorem pollTaskStatus_C9_witness :
    Upload.pollTaskStatus demoResponses 30 = some ⟨"completed", none⟩ ∧
    (Upload.pollTaskStatusCore demoResponses 30).polls = 3 ∧
    (Upload.pollTaskStatusCore demoResponses 30).sleeps = List.replicate 2 2000 := by
  have h := (pollTaskStatus_C9 demoResponses 30).2.2.2.1 2 ⟨"completed", none⟩
    (by decide) (by decide) (by decide) rfl
  exact ⟨h.1, h.2.1, h.2.2⟩

/-! ## Claim C10: totality of the per-spec scorers -/

/-- Counterexample to C10: part_001's `scoreSpecFile` does not turn every
subprocess exception into a zero score with the exception's message — the
inner catch (lines 34-38) salvages `error.stdout || error.message` and parses
it as linter output, so an exec exception whose message contains no
recognizable lint output produces a perfect score of 100 with no error
field at all. -/
theorem score_total_C10_cex :
    (Part001.scoreSpecFile (Except.error ⟨"", "Command failed with exit code 127"⟩)).score = 100 ∧
    (Part001.scoreSpecFile (Except.error ⟨"", "Command failed with exit code 127"⟩)).error = none := by
  constructor
  · decide
  · decide

/-- C10 amended: both per-spec scorers are total — every subprocess outcome,
including a thrown exception, yields a result object and never a propagated
exception.  The ups_postman_governance.js scorer maps every thrown exec error
to score 0 with the exception's message in the error field; part_001's
`scoreSpecFile` instead parses the salvaged `error.stdout || error.message`
as linter output, which can produce a non-zero score with no error (see the
counterexample).  Every result's score is non-negative. -/
theorem score_total_C10_amended :
    (∀ message : String,
      UpsGov.scoreSpecViaPostman (Except.error message)
        = { score := 0, violations := none, violationCount := none,
            error := some message }) ∧
    (∀ e : Part001.ExecError,
      Part001.scoreSpecFile (Except.error e)
        = Part001.scoreSpecFileParse (Part001.salvageOutput e)) ∧
    (∀ outcome, 0 ≤ (Part001.scoreSpecFile outcome).score) ∧
    (∀ outcome, 0 ≤ (UpsGov.scoreSpecViaPostman outcome).score) := by
  refine ⟨fun message => rfl, fun e => rfl, ?_, ?_⟩
  · intro outcome
    unfold Part001.scoreSpecFile Part001.scoreSpecFileParse
    split
    · simp
    · exact le_max_left _ _
  · intro outcome
    unfold UpsGov.scoreSpecViaPostman
    cases outcome with
    | error message => simp
    | ok res =>
      dsimp only
      split
      · simp
      · exact le_max_left _ _

end UpsGovernance
